import Mathlib

/-!
Verification of the `dmapiclient` client library (Crown-Commercial-Service
digital marketplace API client) against its natural-language specification.

The development shallowly embeds the library's request/response pipeline and
the Spotlight (organisation-verification) façade, which is the implementation
file present in the repository (`dmapiclient/spotlight.py`).  The shared base
engine (`base.py`), the error classes (`errors.py`) and the per-resource
façades (`data.py`, `tasks.py`, `central_digital_platform.py`) are not part
of the source tree here; where a property depends on them they are modelled
from the specification (each such definition carries a doc comment starting
with `Modelled from the spec:`), with the concrete behaviour of the thin
per-resource methods pinned by the repository's own test-suite.

Python values flowing through the pipeline are modelled by a small JSON
type; Python exceptions by an explicit error type; the HTTP transport by a
mock state holding the queue of responses the server will give (in order)
and the log of requests sent so far, mirroring the `requests_mock` fixture
used by the repository's tests.
-/

/-- A JSON value, the shape of every decoded body and request payload.
Objects keep their fields in insertion order, as Python dicts do. -/
inductive Json where
  | null : Json
  | bool (b : Bool) : Json
  | str (s : String) : Json
  | num (n : Int) : Json
  | arr (elems : List Json) : Json
  | obj (fields : List (String × Json)) : Json

/-- Python exceptions observable from the library, covering the library's
typed errors (`HTTPError`, `InvalidResponse`, from `errors.py`) as well as
the plain built-in exceptions that escape untyped (`KeyError`, `IndexError`,
`TypeError`, `ValueError`, `AttributeError`).  `connectionError` stands for a
transport-level failure (no response available), `unexpectedRedirect` for
the distinct "unexpected redirect chain" condition of the binary-download
mode, and `fuelExhausted` marks a run of the pagination loop that was not
given enough fuel (it never arises in the terminating runs proved below). -/
inductive PyError where
  | httpError (status : Nat) (message : String) : PyError
  | invalidResponse (message : String) : PyError
  | keyError (key : String) : PyError
  | indexError : PyError
  | typeError : PyError
  | valueError (message : String) : PyError
  | attributeError : PyError
  | connectionError : PyError
  | unexpectedRedirect : PyError
  | fuelExhausted : PyError
  deriving DecidableEq, Repr

/-- Python subscript `d[k]` with a string key: a value for the key on a
dict holding it, `KeyError` on a dict lacking it, `TypeError` on anything
that is not subscriptable by a string. -/
def Json.getKey : Json → String → Except PyError Json
  | .obj fields, k =>
      match fields.lookup k with
      | some v => .ok v
      | none => .error (.keyError k)
  | _, _ => .error .typeError

/-- Python subscript `l[i]` with a non-negative integer index: the element
on a long-enough list, `IndexError` on a too-short list, `KeyError` on a
dict (an integer is just an absent dict key), `TypeError` otherwise. -/
def Json.getIdx : Json → Nat → Except PyError Json
  | .arr elems, i =>
      match elems.get? i with
      | some v => .ok v
      | none => .error .indexError
  | .obj _, i => .error (.keyError (toString i))
  | _, _ => .error .typeError

/-- Python `d.get(k, default)`: defined on dicts only; calling it on any
other value is an `AttributeError`. -/
def Json.dictGet : Json → String → Json → Except PyError Json
  | .obj fields, k, d => .ok ((fields.lookup k).getD d)
  | _, _, _ => .error .attributeError

/-- Python truthiness of a JSON value (`bool(v)`). -/
def Json.truthy : Json → Bool
  | .null => false
  | .bool b => b
  | .str s => !(s == "")
  | .num n => !(n == 0)
  | .arr elems => !elems.isEmpty
  | .obj fields => !fields.isEmpty

mutual

/-- Compact JSON serialization, standing in for the raw bytes the mock
transport would hold for a response declared with a JSON body. -/
def Json.render : Json → String
  | .null => "null"
  | .bool b => if b then "true" else "false"
  | .str s => "\"" ++ s ++ "\""
  | .num n => toString n
  | .arr elems => "[" ++ Json.renderList elems ++ "]"
  | .obj fields => "\x7b" ++ Json.renderFields fields ++ "\x7d"

/-- Serialization of the elements of a JSON array. -/
def Json.renderList : List Json → String
  | [] => ""
  | [x] => Json.render x
  | x :: y :: rest => Json.render x ++ "," ++ Json.renderList (y :: rest)

/-- Serialization of the fields of a JSON object. -/
def Json.renderFields : List (String × Json) → String
  | [] => ""
  | [(k, v)] => "\"" ++ k ++ "\":" ++ Json.render v
  | (k, v) :: p :: rest =>
      "\"" ++ k ++ "\":" ++ Json.render v ++ "," ++ Json.renderFields (p :: rest)

end

/-- An outbound HTTP request as recorded by the mock transport: verb, path,
query parameters and optional JSON body. -/
structure Request where
  method : String
  path : String
  params : List (String × String)
  body : Option Json

/-- The body of a mocked HTTP response: either well-formed JSON or raw
text/bytes (a body that fails JSON decoding). -/
inductive Body where
  | jsonBody (j : Json) : Body
  | textBody (s : String) : Body

/-- The raw bytes of a response body (`response.content`). -/
def Body.asBytes : Body → String
  | .jsonBody j => j.render
  | .textBody s => s

/-- A mocked HTTP response: status code, optional `Location` header and
body. -/
structure Response where
  status : Nat
  location : Option String
  body : Body

/-- The state of the mock transport: the responses the server will hand
out, in order, and the log of requests sent so far (the repository's tests
read this log as `rmock.request_history`). -/
structure HttpState where
  pending : List Response
  sent : List Request

/-- One transport round trip: record the request and consume the next
pending response (`none` when the mock has no response left). -/
def HttpState.send (st : HttpState) (req : Request) : Option Response × HttpState :=
  match st.pending with
  | [] => (none, { pending := [], sent := st.sent ++ [req] })
  | r :: rest => (some r, { pending := rest, sent := st.sent ++ [req] })

/-- The `ResponseType` enum of `base.py`: decode the body as JSON, or
return the raw content bytes. -/
inductive ResponseType where
  | json : ResponseType
  | content : ResponseType

/-- A run-time value returned by the engine: a decoded JSON body, or raw
bytes in content mode (Python being dynamically typed, a single operation
can observe either, e.g. when the client is disabled). -/
inductive Outcome where
  | decoded (j : Json) : Outcome
  | rawBytes (s : String) : Outcome

/-- Modelled from the spec: the error-message extraction of `errors.py`
(not under `src/`).  The failure message attached to a non-2xx response is
the decoded body's `error` field when the body is JSON carrying one, and a
generic placeholder otherwise, so that non-JSON error bodies never crash
error construction. -/
def failureMessage : Body → String
  | .jsonBody (.obj fields) =>
      match fields.lookup "error" with
      | some (.str m) => m
      | _ => "Request failed"
  | _ => "Request failed"

/-- Modelled from the spec: the JSON-mode response classification of
`base.py` (not under `src/`).  Any status of 400 or above raises
`HTTPError` carrying the status and best-effort message; otherwise the body
is decoded, a body that fails JSON decoding raising the distinct
`InvalidResponse` error even though the status was a success. -/
def classifyJson (resp : Response) : Except PyError Json :=
  if 400 ≤ resp.status then
    .error (.httpError resp.status (failureMessage resp.body))
  else
    match resp.body with
    | .jsonBody j => .ok j
    | .textBody _ => .error (.invalidResponse "No JSON object could be decoded")

/-- Modelled from the spec: `BaseAPIClient._request` of `base.py` (not
under `src/`).  When the client is disabled, return the synthetic success
`\x7b\x7d` without touching the transport, for every verb.  Otherwise send the
request; in JSON mode classify with `classifyJson`; in content mode a 2xx
returns the raw body bytes, a 3xx carrying a `Location` header re-issues a
single GET to that location and classifies that response (a second redirect
being the distinct "unexpected redirect chain" failure), and a status of
400 or above raises `HTTPError`. -/
def baseRequest (enabled : Bool) (responseType : ResponseType) (req : Request)
    (st : HttpState) : Except PyError Outcome × HttpState :=
  if enabled then
    match st.send req with
    | (none, st') => (.error .connectionError, st')
    | (some resp, st') =>
      match responseType with
      | .json => ((classifyJson resp).map .decoded, st')
      | .content =>
        if 400 ≤ resp.status then
          (.error (.httpError resp.status (failureMessage resp.body)), st')
        else if 300 ≤ resp.status then
          match resp.location with
          | some loc =>
            match st'.send { method := "GET", path := loc, params := [], body := none } with
            | (none, st'') => (.error .connectionError, st'')
            | (some resp2, st'') =>
              if 400 ≤ resp2.status then
                (.error (.httpError resp2.status (failureMessage resp2.body)), st'')
              else if 300 ≤ resp2.status then
                (.error .unexpectedRedirect, st'')
              else
                (.ok (.rawBytes resp2.body.asBytes), st'')
          | none => (.error (.httpError resp.status (failureMessage resp.body)), st')
        else
          (.ok (.rawBytes resp.body.asBytes), st')
  else
    (.ok (.decoded (Json.obj [])), st)

/-- Modelled from the spec: the JSON-returning request helper of `base.py`
(not under `src/`), i.e. `_request` in its default JSON mode as used by the
`_get`/`_post`/`_patch` verb helpers.  Identical to `baseRequest` in JSON
mode but typed as returning decoded JSON. -/
def requestJson (enabled : Bool) (req : Request) (st : HttpState) :
    Except PyError Json × HttpState :=
  if enabled then
    match st.send req with
    | (none, st') => (.error .connectionError, st')
    | (some resp, st') => (classifyJson resp, st')
  else
    (.ok (Json.obj []), st)

/-! ## The Spotlight façade (`dmapiclient/spotlight.py`) -/

def API_VERSION : String := "2016-10-01"

def SP_DUNS : String := "/triggers/manual/run"

def SP_FVRA : String := "/triggers/Trigger/run"

def SV : String := "1.0"

/-- Source `SpotlightAPIError`: a synthetic error response object carrying a
status code and a message built by `message.format(duns_number=...)`. -/
structure SpotlightAPIError where
  statusCode : Nat
  message : String

/-- Python `str.format(duns_number=...)` at the source's two call sites:
both message templates (`spotlight.py` lines 29 and 36) contain the
placeholder exactly once, at the very end of the template, so formatting
replaces that trailing placeholder, i.e. appends the DUNS number to the
template's leading text. -/
def formatDunsMessage (leadingText : String) (dunsNumber : String) : String :=
  leadingText ++ dunsNumber

/-- Source `SpotlightDunsAPIError`: status 404, message
`Could not find organisation with Duns Number \x7bduns_number\x7d` formatted. -/
def SpotlightDunsAPIError (dunsNumber : String) : SpotlightAPIError :=
  { statusCode := 404,
    message := formatDunsMessage "Could not find organisation with Duns Number " dunsNumber }

/-- Source `SpotlightWarmUpAPIError`: status 500, message
`Could not initiate warm up with Duns Number \x7bduns_number\x7d` formatted. -/
def SpotlightWarmUpAPIError (dunsNumber : String) : SpotlightAPIError :=
  { statusCode := 500,
    message := formatDunsMessage "Could not initiate warm up with Duns Number " dunsNumber }

/-- The `SptlightURL` enum of workflow endpoint paths (name as in the
source). -/
inductive SptlightURL where
  | POST_IDENTITY_SEARCH : SptlightURL
  | POST_FVRA_WARM_UP : SptlightURL
  | POST_SINGLE_FINANCIALS_CHECK : SptlightURL
  | POST_MULTIPLE_FINANCIALS_CHECK : SptlightURL

/-- The `value` of each `SptlightURL` member. -/
def SptlightURL.value : SptlightURL → String
  | .POST_IDENTITY_SEARCH =>
      "/workflows/5319fad3d7e341a89183b32df72671ba/triggers/manual/paths/invoke"
  | .POST_FVRA_WARM_UP =>
      "/workflows/91fa768cca7348cab37695fcf34b1262/triggers/Trigger/paths/invoke"
  | .POST_SINGLE_FINANCIALS_CHECK =>
      "/workflows/9f848cc1409f441ca6bae23793ba7960/triggers/Trigger/paths/invoke"
  | .POST_MULTIPLE_FINANCIALS_CHECK =>
      "/workflows/6d3d793e151a4a2c86af189bcca435dd/triggers/Trigger/paths/invoke"

/-- Source `BaseSpotlightAPIClient`: configuration state set by `__init__`
(routing segment `sp`, base URL, API key, enabled flag); the timeout pair
is fixed and plays no role in the mocked transport. -/
structure BaseSpotlightAPIClient where
  sp : String
  base_url : Option String
  api_key : Option String
  enabled : Bool

/-- Source `BaseSpotlightAPIClient._get_params`: the signed query parameters
`api-version`, `sp`, `sv` and `sig` (the raw API key).  A `None` key is
dropped by the transport when the query string is built, hence the
optional last entry. -/
def BaseSpotlightAPIClient.getParams (c : BaseSpotlightAPIClient) : List (String × String) :=
  [("api-version", API_VERSION), ("sp", c.sp), ("sv", SV)] ++
    (match c.api_key with
     | some k => [("sig", k)]
     | none => [])

/-- Source `BaseSpotlightAPIClient._post`: POST to the workflow URL with the given
JSON payload and the signed query parameters from `_get_params`. -/
def BaseSpotlightAPIClient.post (c : BaseSpotlightAPIClient) (url : SptlightURL)
    (data : Json) (responseType : ResponseType) (st : HttpState) :
    Except PyError Outcome × HttpState :=
  baseRequest c.enabled responseType
    { method := "POST", path := url.value, params := c.getParams, body := some data } st

/-- Python subscript on a run-time engine value: dict subscripting on a
decoded body, `TypeError` on raw bytes (`bytes[str]`). -/
def Outcome.getKey : Outcome → String → Except PyError Json
  | .decoded j, k => j.getKey k
  | .rawBytes _, _ => .error .typeError

/-- Source `_SpotlightDunsAPIClient.__init__`: routing segment fixed to
`SP_DUNS`. -/
def mkSpotlightDunsAPIClient (base_url api_key : Option String) (enabled : Bool) :
    BaseSpotlightAPIClient :=
  { sp := SP_DUNS, base_url := base_url, api_key := api_key, enabled := enabled }

/-- Source `_SpotlightFvraWarmUpAPIClient.__init__`: routing segment fixed to
`SP_FVRA`. -/
def mkSpotlightFvraWarmUpAPIClient (base_url api_key : Option String) (enabled : Bool) :
    BaseSpotlightAPIClient :=
  { sp := SP_FVRA, base_url := base_url, api_key := api_key, enabled := enabled }

/-- Source `_SpotlightFvraSingleCheckAPIClient.__init__`: routing segment fixed to
`SP_FVRA`. -/
def mkSpotlightFvraSingleCheckAPIClient (base_url api_key : Option String) (enabled : Bool) :
    BaseSpotlightAPIClient :=
  { sp := SP_FVRA, base_url := base_url, api_key := api_key, enabled := enabled }

/-- Source `_SpotlightFvraMultipleCheckAPIClient.__init__`: routing segment fixed
to `SP_FVRA`. -/
def mkSpotlightFvraMultipleCheckAPIClient (base_url api_key : Option String) (enabled : Bool) :
    BaseSpotlightAPIClient :=
  { sp := SP_FVRA, base_url := base_url, api_key := api_key, enabled := enabled }

/-- Source `_SpotlightDunsAPIClient.find_organisation_from_duns_number`: POST the
identity-search payload, take `['searchOrganisation'][0]` of the decoded
body and wrap it as `\x7b'organisations': ...\x7d`; only `InvalidResponse`
is caught, and is converted into an `HTTPError` built from
`SpotlightDunsAPIError` (status 404). -/
def findOrganisationFromDunsNumber (c : BaseSpotlightAPIClient) (dunsNumber : String)
    (st : HttpState) : Except PyError Json × HttpState :=
  let step := c.post .POST_IDENTITY_SEARCH
    (Json.obj [("requestType", .str "SearchOrganisation"),
               ("parameters", .obj [("dunsNumber", .str dunsNumber)])])
    .json st
  let attempt : Except PyError Json :=
    match step.1 with
    | .error e => .error e
    | .ok out =>
      match out.getKey "searchOrganisation" with
      | .error e => .error e
      | .ok v =>
        match v.getIdx 0 with
        | .error e => .error e
        | .ok first => .ok (Json.obj [("organisations", first)])
  match attempt with
  | .error (.invalidResponse _) =>
      (.error (.httpError (SpotlightDunsAPIError dunsNumber).statusCode
        (SpotlightDunsAPIError dunsNumber).message), step.2)
  | other => (other, step.2)

/-- Source `_SpotlightFvraWarmUpAPIClient.inform_spotlight_of_duns_number_for_check`:
POST the warm-up payload in content mode; a response equal to the byte
string `\x27Call received.\x27` yields `\x7b"message": "done"\x7d`, anything
else raises an `HTTPError` built from `SpotlightWarmUpAPIError` (status
500).  A decoded (non-bytes) value never equals the byte literal. -/
def informSpotlightOfDunsNumberForCheck (c : BaseSpotlightAPIClient)
    (dunsNumber organisationName : String) (st : HttpState) :
    Except PyError Json × HttpState :=
  let step := c.post .POST_FVRA_WARM_UP
    (Json.obj [("Account", .arr [.obj [
        ("Name", .str organisationName),
        ("DunsNumber", .str dunsNumber),
        ("OnDemandChecks", .str "true"),
        ("PartOfDailyChecks", .str "false")]])])
    .content st
  match step.1 with
  | .error e => (.error e, step.2)
  | .ok (.rawBytes s) =>
      if s = "\x27Call received.\x27" then
        (.ok (Json.obj [("message", .str "done")]), step.2)
      else
        (.error (.httpError (SpotlightWarmUpAPIError dunsNumber).statusCode
          (SpotlightWarmUpAPIError dunsNumber).message), step.2)
  | .ok (.decoded _) =>
      (.error (.httpError (SpotlightWarmUpAPIError dunsNumber).statusCode
        (SpotlightWarmUpAPIError dunsNumber).message), step.2)

/-- Source `_SpotlightFvraSingleCheckAPIClient.get_financials_from_duns_number`:
POST the single-check payload with `DunsNumber` holding the one given
string, take `['ResultSets'][0]` of the decoded body and wrap it as
`\x7b'organisationMetrics': ...\x7d`.  Nothing is caught. -/
def getFinancialsFromDunsNumber (c : BaseSpotlightAPIClient) (dunsNumber : String)
    (st : HttpState) : Except PyError Json × HttpState :=
  let step := c.post .POST_SINGLE_FINANCIALS_CHECK
    (Json.obj [("Account", .arr [.obj [
        ("DunsNumber", .str dunsNumber),
        ("OnDemandChecks", .str "true"),
        ("PartOfDailyChecks", .str "false")]])])
    .json st
  let result : Except PyError Json :=
    match step.1 with
    | .error e => .error e
    | .ok out =>
      match out.getKey "ResultSets" with
      | .error e => .error e
      | .ok rs =>
        match rs.getIdx 0 with
        | .error e => .error e
        | .ok m => .ok (Json.obj [("organisationMetrics", m)])
  (result, step.2)

/-- Source `_SpotlightFvraMultipleCheckAPIClient.get_financials_from_duns_numbers`:
POST the multiple-check payload with `DunsNumber` holding the given list,
take `['ResultSets']['Table1']` of the decoded body and wrap it as
`\x7b'organisationMetrics': ...\x7d`.  Nothing is caught. -/
def getFinancialsFromDunsNumbers (c : BaseSpotlightAPIClient) (dunsNumbers : List String)
    (st : HttpState) : Except PyError Json × HttpState :=
  let step := c.post .POST_MULTIPLE_FINANCIALS_CHECK
    (Json.obj [("Account", .arr [.obj [
        ("DunsNumber", .arr (dunsNumbers.map .str)),
        ("OnDemandChecks", .str "true"),
        ("PartOfDailyChecks", .str "false")]])])
    .json st
  let result : Except PyError Json :=
    match step.1 with
    | .error e => .error e
    | .ok out =>
      match out.getKey "ResultSets" with
      | .error e => .error e
      | .ok rs =>
        match rs.getKey "Table1" with
        | .error e => .error e
        | .ok t => .ok (Json.obj [("organisationMetrics", t)])
  (result, step.2)

/-- The composite `SpotlightAPIClient`: four sub-clients, one per
workflow. -/
structure SpotlightAPIClient where
  spotlightDunsApiClient : BaseSpotlightAPIClient
  spotlightWarmUpApiClient : BaseSpotlightAPIClient
  spotlightFvraSingleCheckApiClient : BaseSpotlightAPIClient
  spotlightFvraMultipleCheckApiClient : BaseSpotlightAPIClient

/-- Source `SpotlightAPIClient.find_organisation_from_duns_number` delegates to
the DUNS sub-client. -/
def SpotlightAPIClient.findOrganisation (c : SpotlightAPIClient) (dunsNumber : String)
    (st : HttpState) : Except PyError Json × HttpState :=
  findOrganisationFromDunsNumber c.spotlightDunsApiClient dunsNumber st

/-- Source `SpotlightAPIClient.inform_spotlight_of_duns_number_for_check`
delegates to the warm-up sub-client. -/
def SpotlightAPIClient.informSpotlight (c : SpotlightAPIClient)
    (dunsNumber organisationName : String) (st : HttpState) :
    Except PyError Json × HttpState :=
  informSpotlightOfDunsNumberForCheck c.spotlightWarmUpApiClient dunsNumber organisationName st

/-- Source `SpotlightAPIClient.get_financials_from_duns_number` delegates to the
single-check sub-client. -/
def SpotlightAPIClient.getFinancialsSingle (c : SpotlightAPIClient) (dunsNumber : String)
    (st : HttpState) : Except PyError Json × HttpState :=
  getFinancialsFromDunsNumber c.spotlightFvraSingleCheckApiClient dunsNumber st

/-- Source `SpotlightAPIClient.get_financials_from_duns_numbers` delegates to the
multiple-check sub-client. -/
def SpotlightAPIClient.getFinancialsMultiple (c : SpotlightAPIClient)
    (dunsNumbers : List String) (st : HttpState) : Except PyError Json × HttpState :=
  getFinancialsFromDunsNumbers c.spotlightFvraMultipleCheckApiClient dunsNumbers st

/-! ## Spec-modelled engine pieces: pagination and per-resource methods -/

/-- Split a character list on a separator character (used for query-string
parsing; the result always has at least one group). -/
def splitOnChar (sep : Char) : List Char → List (List Char)
  | [] => [[]]
  | c :: cs =>
      match splitOnChar sep cs with
      | [] => [[c]]
      | grp :: rest => if c = sep then [] :: grp :: rest else (c :: grp) :: rest

/-- The characters after the first occurrence of a separator, `none` when
the separator does not occur. -/
def charsAfter (sep : Char) : List Char → Option (List Char)
  | [] => none
  | c :: cs => if c = sep then some cs else charsAfter sep cs

/-- Split a character list at the first occurrence of a separator, `none`
when the separator does not occur. -/
def splitAtChar (sep : Char) : List Char → Option (List Char × List Char)
  | [] => none
  | c :: cs =>
      if c = sep then some ([], cs)
      else
        match splitAtChar sep cs with
        | some (k, v) => some (c :: k, v)
        | none => none

/-- Modelled from the spec: `urlparse(url).query` — the part of a URL after
the first `?` (empty when there is none). -/
def urlQuery (url : String) : List Char :=
  (charsAfter (Char.ofNat 63) url.toList).getD []

/-- Modelled from the spec: `parse_qs` on a query string — split on `&`,
then each pair at its first `=`, dropping fragments without a key. -/
def parseQs (query : List Char) : List (String × String) :=
  (splitOnChar (Char.ofNat 38) query).filterMap fun kv =>
    match splitAtChar (Char.ofNat 61) kv with
    | some (k, v) => if k.isEmpty then none else some (String.mk k, String.mk v)
    | none => none

/-- Python `dict` assignment `d[k] = v`: overwrite in place, preserving
insertion order, appending a fresh key at the end. -/
def setParam : List (String × String) → String → String → List (String × String)
  | [], k, v => [(k, v)]
  | (k', v') :: rest, k, v =>
      if k' = k then (k, v) :: rest else (k', v') :: setParam rest k v

/-- Python `kwargs.update(newParams)`: fold the new pairs onto the existing
mapping, overriding existing keys. -/
def updateParams (kwargs newParams : List (String × String)) : List (String × String) :=
  newParams.foldl (fun acc kv => setParam acc kv.1 kv.2) kwargs

/-- Modelled from the spec: a paginated `find_*` façade method of `data.py`
(not under `src/`) — one GET to a fixed path carrying the current keyword
arguments as query parameters, decoded as JSON. -/
def findJson (enabled : Bool) (path : String) (kwargs : List (String × String))
    (st : HttpState) : Except PyError Json × HttpState :=
  requestJson enabled { method := "GET", path := path, params := kwargs, body := none } st

/-- Modelled from the spec: the pagination iterator `_iter` of `base.py`
(not under `src/`).  Call `find_fn(**kwargs)`; yield each element of the
page's resource list (`page[model_name]`), in the order received; when
`page.get('links', \x7b\x7d).get('next')` is truthy, extract the next URL's
query parameters, merge/override them onto `kwargs` and repeat; otherwise
stop.  The Python generator is unbounded, so the Lean model takes fuel; a
run that would loop past the fuel ends in the marker error `fuelExhausted`
(the theorems below prove the runs they describe never reach it). -/
def iterPages (findFn : List (String × String) → HttpState → Except PyError Json × HttpState)
    (modelName : String) :
    Nat → List (String × String) → HttpState → Except PyError (List Json) × HttpState
  | 0, _, st => (.error .fuelExhausted, st)
  | fuel + 1, kwargs, st =>
      match findFn kwargs st with
      | (.error e, st') => (.error e, st')
      | (.ok page, st') =>
        match page.getKey modelName with
        | .error e => (.error e, st')
        | .ok items =>
          match items with
          | .arr elems =>
            match page.dictGet "links" (Json.obj []) with
            | .error e => (.error e, st')
            | .ok links =>
              match links.dictGet "next" Json.null with
              | .error e => (.error e, st')
              | .ok nxt =>
                if nxt.truthy then
                  match nxt with
                  | .str url =>
                    match iterPages findFn modelName fuel
                        (updateParams kwargs (parseQs (urlQuery url))) st' with
                    | (.error e, st'') => (.error e, st'')
                    | (.ok rest, st'') => (.ok (elems ++ rest), st'')
                  | _ => (.error .typeError, st')
                else
                  (.ok elems, st')
          | _ => (.error .typeError, st')

/-- Source `DataAPIClient` configuration state: base URL, bearer token, optional
default attribution user, enabled flag. -/
structure DataAPIClient where
  base_url : String
  auth_token : String
  user : Option String
  enabled : Bool

/-- Modelled from the spec: the attribution resolution of the mutating-call
helpers of `base.py` (not under `src/`) — an explicit per-call argument
takes priority over the client-level default bound at construction, and
the absence of both raises `ValueError` before any request is made. -/
def resolveUpdatedBy (clientUser callUser : Option String) : Except PyError String :=
  match callUser with
  | some u => .ok u
  | none =>
    match clientUser with
    | some u => .ok u
    | none => .error (.valueError "Must supply updated_by")

/-- Modelled from the spec: `DataAPIClient.get_service` (`data.py` is not
under `src/`) — a single-resource GET whose 404 is translated to `None`
while every other failure propagates (behaviour pinned by
`test_get_service_returns_none_on_404` and `test_get_service_raises_on_non_404`). -/
def DataAPIClient.getService (c : DataAPIClient) (serviceId : String) (st : HttpState) :
    Except PyError (Option Json) × HttpState :=
  match requestJson c.enabled
      { method := "GET", path := "/services/" ++ serviceId, params := [], body := none } st with
  | (.ok j, st') => (.ok (some j), st')
  | (.error (.httpError status m), st') =>
      if status = 404 then (.ok none, st') else (.error (.httpError status m), st')
  | (.error e, st') => (.error e, st')

/-- Modelled from the spec: `DataAPIClient.authenticate_user` (`data.py` is
not under `src/`) — POST the credentials and swallow `HTTPError` into
`None` for statuses 400, 403 and 404, re-raising every other failure
(behaviour pinned by `test_authenticate_user_returns_none_on_404/403/400`
and `test_authenticate_user_raises_on_500`). -/
def DataAPIClient.authenticateUser (c : DataAPIClient) (emailAddress password : String)
    (st : HttpState) : Except PyError (Option Json) × HttpState :=
  match requestJson c.enabled
      { method := "POST", path := "/users/auth", params := [],
        body := some (Json.obj [("authUsers", .obj
          [("emailAddress", .str emailAddress), ("password", .str password)])]) } st with
  | (.ok j, st') => (.ok (some j), st')
  | (.error (.httpError status m), st') =>
      if status = 400 ∨ status = 403 ∨ status = 404 then (.ok none, st')
      else (.error (.httpError status m), st')
  | (.error e, st') => (.error e, st')

/-- Modelled from the spec: `DataAPIClient.update_supplier_declaration`
(`data.py` is not under `src/`) — a mutating PATCH whose body carries the
declaration and the resolved `updated_by` attribution (behaviour pinned by
`test_updated_by_user_can_be_set_in_constructor` and
`test_value_error_is_raised_if_no_user_in_constructor_or_method_call`). -/
def DataAPIClient.updateSupplierDeclaration (c : DataAPIClient)
    (supplierId frameworkSlug : String) (declaration : Json) (user : Option String)
    (st : HttpState) : Except PyError Json × HttpState :=
  match resolveUpdatedBy c.user user with
  | .error e => (.error e, st)
  | .ok u =>
      requestJson c.enabled
        { method := "PATCH",
          path := "/suppliers/" ++ supplierId ++ "/frameworks/" ++ frameworkSlug ++ "/declaration",
          params := [],
          body := some (Json.obj [("declaration", declaration), ("updated_by", .str u)]) } st

/-- Modelled from the spec: `DataAPIClient.update_user_password` (`data.py`
is not under `src/`) — the one mutating method whose attribution falls back
to the literal `no logged-in user` instead of raising, and which swallows
`HTTPError` into `False` (behaviour pinned by `test_update_user_password`,
`test_update_user_password_with_user_property` and
`test_update_user_password_returns_false_on_non_200`). -/
def DataAPIClient.updateUserPassword (c : DataAPIClient) (userId newPassword : String)
    (updater : Option String) (st : HttpState) : Except PyError Bool × HttpState :=
  let u :=
    match updater with
    | some x => x
    | none =>
      match c.user with
      | some x => x
      | none => "no logged-in user"
  match requestJson c.enabled
      { method := "POST", path := "/users/" ++ userId, params := [],
        body := some (Json.obj
          [("users", .obj [("password", .str newPassword)]), ("updated_by", .str u)]) } st with
  | (.ok _, st') => (.ok true, st')
  | (.error (.httpError _ _), st') => (.ok false, st')
  | (.error e, st') => (.error e, st')

/-- Source `TasksAPIClient` configuration state. -/
structure TasksAPIClient where
  base_url : String
  auth_token : String
  user : Option String
  enabled : Bool

/-- An optional string as sent on the wire: JSON `null` when absent. -/
def optStr : Option String → Json
  | some s => .str s
  | none => .null

/-- Modelled from the spec:
`TasksAPIClient.notify_suppliers_of_framework_application_event` (`tasks.py`
is not under `src/`) — a mutating POST whose body carries the resolved
`updated_by` attribution and the two optional template fields (behaviour
pinned by the tests of `test_tasks_api_client.py`). -/
def TasksAPIClient.notifySuppliersOfFrameworkApplicationEvent (c : TasksAPIClient)
    (frameworkSlug : String) (user : Option String)
    (notificationTemplateName notificationTemplateId : Option String) (st : HttpState) :
    Except PyError Json × HttpState :=
  match resolveUpdatedBy c.user user with
  | .error e => (.error e, st)
  | .ok u =>
      requestJson c.enabled
        { method := "POST",
          path := "/frameworks/" ++ frameworkSlug ++ "/notifications/framework-application-event",
          params := [],
          body := some (Json.obj
            [("updated_by", .str u),
             ("notificationTemplateName", optStr notificationTemplateName),
             ("notificationTemplateId", optStr notificationTemplateId)]) } st

/-- Source `CentralDigitalPlatformAPIClient` configuration state. -/
structure CentralDigitalPlatformAPIClient where
  base_url : String
  api_key : String
  enabled : Bool

/-- Modelled from the spec:
`CentralDigitalPlatformAPIClient.get_document_within_supplier_submitted_information`
(`central_digital_platform.py` is not under `src/`) — a binary download:
GET the document path in raw-bytes mode, the engine transparently following
a single redirect hop (behaviour pinned by
`test_get_document_within_supplier_submitted_information`). -/
def CentralDigitalPlatformAPIClient.getDocumentWithinSupplierSubmittedInformation
    (c : CentralDigitalPlatformAPIClient) (shareCode documentId : String) (st : HttpState) :
    Except PyError Outcome × HttpState :=
  baseRequest c.enabled .content
    { method := "GET",
      path := "/share/data/" ++ shareCode ++ "/document/" ++ documentId,
      params := [], body := none } st

/-! ## Helper definitions and lemmas shared by the claim theorems -/

/-- Whether a result is the library's distinct `InvalidResponse` error. -/
def Except.isInvalidResponse {α : Type} : Except PyError α → Bool
  | .error (.invalidResponse _) => true
  | _ => false

/-- The result of one engine round trip does not depend on which request
was sent: the mock serves its pending responses in order, so the request
only lands in the log. -/
theorem baseRequest_fst_congr (en : Bool) (rt : ResponseType) (req req' : Request)
    (st : HttpState) :
    (baseRequest en rt req st).1 = (baseRequest en rt req' st).1 := by
  rcases st with ⟨pending, sentLog⟩
  cases en <;> rcases pending with _ | ⟨r, rest⟩ <;> rcases rt <;>
    simp [baseRequest, HttpState.send]
  rcases rest with _ | ⟨r2, rest2⟩ <;>
    rcases r.location with _ | loc <;>
    simp [HttpState.send, apply_ite (f := Prod.fst)]

/-! ## Claim theorems -/

/-- Claim C1: for the paginated `find_*_iter` operations, a first page
holding a resource list and a `links.next` URL followed by a second page
with a resource list and no `next` link yields exactly the first page's
items followed by the second page's, in order, with exactly two HTTP
calls (the second carrying the `page=2` parameter extracted from the next
URL); and a single page with no `links` key at all yields exactly that
page's items with exactly one HTTP call (zero items when the page is
empty). -/
theorem find_iter_pagination (path : String) (xs ys : List Json) (sent : List Request) :
    iterPages (findJson true path) "users" 2 []
      { pending := [
          { status := 200, location := none, body := .jsonBody (.obj
              [("links", .obj [("next", .str "http://baseurl/users?page=2")]),
               ("users", .arr xs)]) },
          { status := 200, location := none, body := .jsonBody (.obj
              [("links", .obj [("prev", .str "http://baseurl/users")]),
               ("users", .arr ys)]) }],
        sent := sent } =
      (.ok (xs ++ ys),
        { pending := [],
          sent := sent ++ [
            { method := "GET", path := path, params := [], body := none },
            { method := "GET", path := path, params := [("page", "2")], body := none }] }) ∧
    iterPages (findJson true path) "users" 2 []
      { pending := [
          { status := 200, location := none,
            body := .jsonBody (.obj [("users", .arr xs)]) }],
        sent := sent } =
      (.ok xs,
        { pending := [],
          sent := sent ++ [
            { method := "GET", path := path, params := [], body := none }] }) := by
  constructor <;>
    simp [iterPages, findJson, requestJson, HttpState.send, classifyJson, Json.getKey,
      Json.dictGet, Json.truthy, List.lookup, updateParams, parseQs, urlQuery, setParam,
      charsAfter, splitAtChar, splitOnChar]

/-- Claim C6: for the binary-download operation
`get_document_within_supplier_submitted_information`, a 302 response with a
`Location` header followed by a 200 response returns exactly the second
response's body bytes after exactly two HTTP calls, the second being a GET
to the `Location` URL; and when the second response is also a redirect
(any 3xx status) the operation fails with the distinct unexpected-redirect
error instead of following further. -/
theorem binary_download_single_hop_redirect (baseUrl apiKey shareCode documentId : String)
    (loc bytes : String) (b1 b2 : Body) (loc2 : Option String) (s2 : Nat)
    (rest : List Response) (sent : List Request) (h3xx : 300 ≤ s2 ∧ s2 < 400) :
    CentralDigitalPlatformAPIClient.getDocumentWithinSupplierSubmittedInformation
      ⟨baseUrl, apiKey, true⟩ shareCode documentId
      { pending := [⟨302, some loc, b1⟩, ⟨200, none, .textBody bytes⟩] ++ rest, sent := sent } =
      (.ok (.rawBytes bytes),
        { pending := rest,
          sent := sent ++ [
            { method := "GET",
              path := "/share/data/" ++ shareCode ++ "/document/" ++ documentId,
              params := [], body := none },
            { method := "GET", path := loc, params := [], body := none }] }) ∧
    (CentralDigitalPlatformAPIClient.getDocumentWithinSupplierSubmittedInformation
      ⟨baseUrl, apiKey, true⟩ shareCode documentId
      { pending := [⟨302, some loc, b1⟩, ⟨s2, loc2, b2⟩] ++ rest, sent := sent }).1 =
      .error .unexpectedRedirect := by
  have h4 : ¬ 400 ≤ s2 := by omega
  constructor <;>
    simp [CentralDigitalPlatformAPIClient.getDocumentWithinSupplierSubmittedInformation,
      baseRequest, HttpState.send, Body.asBytes, h4, h3xx.1]

/-- Claim C6 witness: the redirect-follow theorem applied at a concrete
input (second status 302). -/
theorem binary_download_single_hop_redirect_witness :
    CentralDigitalPlatformAPIClient.getDocumentWithinSupplierSubmittedInformation
      ⟨"http://cdp-baseurl", "api-key", true⟩ "123" "456"
      { pending := [⟨302, some "http://documents-server/123456", .textBody ""⟩,
                    ⟨200, none, .textBody "pdf-bytes"⟩] ++ [], sent := [] } =
      (.ok (.rawBytes "pdf-bytes"),
        { pending := [],
          sent := [
            { method := "GET", path := "/share/data/" ++ "123" ++ "/document/" ++ "456",
              params := [], body := none },
            { method := "GET", path := "http://documents-server/123456", params := [],
              body := none }] }) ∧
    (CentralDigitalPlatformAPIClient.getDocumentWithinSupplierSubmittedInformation
      ⟨"http://cdp-baseurl", "api-key", true⟩ "123" "456"
      { pending := [⟨302, some "http://documents-server/123456", .textBody ""⟩,
                    ⟨302, some "http://documents-server/elsewhere", .textBody ""⟩] ++ [],
        sent := [] }).1 =
      .error .unexpectedRedirect := by
  have h := binary_download_single_hop_redirect "http://cdp-baseurl" "api-key" "123" "456"
    "http://documents-server/123456" "pdf-bytes" (.textBody "")
    (.textBody "") (some "http://documents-server/elsewhere") 302 [] [] (by decide)
  simpa using h

/-- Claim C8: the single financials check sends `DunsNumber` as the one
given string and returns the head of the `ResultSets` array wrapped under
`organisationMetrics`, while the multiple financials check sends
`DunsNumber` as the given list and returns `ResultSets.Table1` wrapped
under `organisationMetrics` — two distinct wire and result shapes. -/
theorem financials_check_shapes (sp : String) (baseUrl : Option String) (k : String)
    (dunsNumber : String) (dunsNumbers : List String) (m t : Json) (ms : List Json)
    (loc : Option String) (rest : List Response) (sent : List Request) :
    getFinancialsFromDunsNumber ⟨sp, baseUrl, some k, true⟩ dunsNumber
      { pending := ⟨200, loc, .jsonBody (.obj [("ResultSets", .arr (m :: ms))])⟩ :: rest,
        sent := sent } =
      (.ok (.obj [("organisationMetrics", m)]),
        { pending := rest,
          sent := sent ++ [
            { method := "POST", path := SptlightURL.POST_SINGLE_FINANCIALS_CHECK.value,
              params := [("api-version", "2016-10-01"), ("sp", sp), ("sv", "1.0"), ("sig", k)],
              body := some (.obj [("Account", .arr [.obj [
                ("DunsNumber", .str dunsNumber),
                ("OnDemandChecks", .str "true"),
                ("PartOfDailyChecks", .str "false")]])]) }] }) ∧
    getFinancialsFromDunsNumbers ⟨sp, baseUrl, some k, true⟩ dunsNumbers
      { pending := ⟨200, loc, .jsonBody (.obj [("ResultSets", .obj [("Table1", t)])])⟩ :: rest,
        sent := sent } =
      (.ok (.obj [("organisationMetrics", t)]),
        { pending := rest,
          sent := sent ++ [
            { method := "POST", path := SptlightURL.POST_MULTIPLE_FINANCIALS_CHECK.value,
              params := [("api-version", "2016-10-01"), ("sp", sp), ("sv", "1.0"), ("sig", k)],
              body := some (.obj [("Account", .arr [.obj [
                ("DunsNumber", .arr (dunsNumbers.map .str)),
                ("OnDemandChecks", .str "true"),
                ("PartOfDailyChecks", .str "false")]])]) }] }) := by
  constructor <;>
    simp [getFinancialsFromDunsNumber, getFinancialsFromDunsNumbers,
      BaseSpotlightAPIClient.post, BaseSpotlightAPIClient.getParams, baseRequest,
      HttpState.send, classifyJson, Outcome.getKey, Json.getKey, Json.getIdx,
      Except.map, List.lookup, List.get?, API_VERSION, SV]

/-- Claim C9: the configured credential never influences the result (in
particular any error message or payload) of a Spotlight operation — two
runs against the same pending responses, differing only in the configured
`api_key` (and base URL), produce identical results.  The key reaches only
the request log's `sig` parameter. -/
theorem spotlight_key_noninterference (sp : String) (b1 b2 k1 k2 : Option String)
    (en : Bool) (duns org : String) (ds : List String) (st : HttpState) :
    (findOrganisationFromDunsNumber ⟨sp, b1, k1, en⟩ duns st).1 =
      (findOrganisationFromDunsNumber ⟨sp, b2, k2, en⟩ duns st).1 ∧
    (informSpotlightOfDunsNumberForCheck ⟨sp, b1, k1, en⟩ duns org st).1 =
      (informSpotlightOfDunsNumberForCheck ⟨sp, b2, k2, en⟩ duns org st).1 ∧
    (getFinancialsFromDunsNumber ⟨sp, b1, k1, en⟩ duns st).1 =
      (getFinancialsFromDunsNumber ⟨sp, b2, k2, en⟩ duns st).1 ∧
    (getFinancialsFromDunsNumbers ⟨sp, b1, k1, en⟩ ds st).1 =
      (getFinancialsFromDunsNumbers ⟨sp, b2, k2, en⟩ ds st).1 := by
  refine ⟨?_, ?_, ?_, ?_⟩
  · rcases st with ⟨pending, sentLog⟩
    cases en <;> rcases pending with _ | ⟨r, rest⟩ <;>
      simp [findOrganisationFromDunsNumber, BaseSpotlightAPIClient.post, baseRequest,
        HttpState.send, classifyJson, Outcome.getKey, apply_ite (f := Prod.fst)] <;>
      repeat' split <;> first | rfl | simp
  · rcases st with ⟨pending, sentLog⟩
    cases en <;> rcases pending with _ | ⟨r, rest⟩ <;>
      simp [informSpotlightOfDunsNumberForCheck, BaseSpotlightAPIClient.post, baseRequest,
        HttpState.send, classifyJson, Outcome.getKey, apply_ite (f := Prod.fst)]
    rcases rest with _ | ⟨r2, rest2⟩ <;>
      rcases r.location with _ | loc <;>
      (try simp [HttpState.send, apply_ite (f := Prod.fst)]) <;>
      repeat' split
    all_goals rfl
  · rcases st with ⟨pending, sentLog⟩
    cases en <;> rcases pending with _ | ⟨r, rest⟩ <;>
      simp [getFinancialsFromDunsNumber, BaseSpotlightAPIClient.post, baseRequest,
        HttpState.send, classifyJson, Outcome.getKey, apply_ite (f := Prod.fst)] <;>
      repeat' split <;> first | rfl | simp
  · rcases st with ⟨pending, sentLog⟩
    cases en <;> rcases pending with _ | ⟨r, rest⟩ <;>
      simp [getFinancialsFromDunsNumbers, BaseSpotlightAPIClient.post, baseRequest,
        HttpState.send, classifyJson, Outcome.getKey, apply_ite (f := Prod.fst)] <;>
      repeat' split <;> first | rfl | simp

/-- Claim C4 counterexample: when the warm-up operation (raw-bytes mode)
receives a 302, the engine's follow-up GET to the `Location` URL carries no
query parameters at all — in particular no `sig` — so not every request
issued during a Spotlight operation carries the signed parameters.  The
run's two requests are the façade's signed POST and the unsigned GET. -/
theorem spotlight_signed_query_counterexample :
    ((informSpotlightOfDunsNumberForCheck ⟨SP_FVRA, none, some "api-key", true⟩
        "123456789" "Vandham"
        { pending := [⟨302, some "http://documents-server/123456", .textBody ""⟩,
                      ⟨200, none, .textBody "pdf-bytes"⟩], sent := [] }).2.sent.map
      (fun r => (r.method, r.params.lookup "sig"))) =
      [("POST", some "api-key"), ("GET", none)] := by
  simp [informSpotlightOfDunsNumberForCheck, BaseSpotlightAPIClient.post,
    BaseSpotlightAPIClient.getParams, baseRequest, HttpState.send, Body.asBytes,
    List.lookup, API_VERSION, SV, SP_FVRA]

/-- Claim C4 (amended): every request a Spotlight façade operation builds
and sends (all go through `_post`) carries exactly the signed query
parameters api-version `2016-10-01`, the routing segment `sp`, `sv` `1.0`,
and `sig` equal to the raw configured `api_key`; the single exception is
the engine's one-hop redirect GET in raw-bytes mode (warm-up operation
only), which carries no query parameters. -/
theorem spotlight_signed_query_params (sp : String) (b : Option String) (k : String)
    (en : Bool) (duns org : String) (ds : List String) (st : HttpState) :
    (∃ l, (findOrganisationFromDunsNumber ⟨sp, b, some k, en⟩ duns st).2.sent
        = st.sent ++ l ∧
      ∀ r ∈ l,
        r.params = [("api-version", "2016-10-01"), ("sp", sp), ("sv", "1.0"), ("sig", k)]) ∧
    (∃ l, (informSpotlightOfDunsNumberForCheck ⟨sp, b, some k, en⟩ duns org st).2.sent
        = st.sent ++ l ∧
      ∀ r ∈ l,
        r.params = [("api-version", "2016-10-01"), ("sp", sp), ("sv", "1.0"), ("sig", k)]
          ∨ (r.method = "GET" ∧ r.params = [])) ∧
    (∃ l, (getFinancialsFromDunsNumber ⟨sp, b, some k, en⟩ duns st).2.sent
        = st.sent ++ l ∧
      ∀ r ∈ l,
        r.params = [("api-version", "2016-10-01"), ("sp", sp), ("sv", "1.0"), ("sig", k)]) ∧
    (∃ l, (getFinancialsFromDunsNumbers ⟨sp, b, some k, en⟩ ds st).2.sent
        = st.sent ++ l ∧
      ∀ r ∈ l,
        r.params = [("api-version", "2016-10-01"), ("sp", sp), ("sv", "1.0"), ("sig", k)]) := by
  refine ⟨?_, ?_, ?_, ?_⟩
  · rcases st with ⟨pending, sentLog⟩
    cases en
    · refine ⟨[], ?_, by simp⟩
      simp [findOrganisationFromDunsNumber, BaseSpotlightAPIClient.post, baseRequest,
        Outcome.getKey, Json.getKey, List.lookup, apply_ite (f := Prod.snd)]
    · rcases pending with _ | ⟨r, rest⟩ <;>
        refine ⟨[⟨"POST", SptlightURL.POST_IDENTITY_SEARCH.value,
          [("api-version", "2016-10-01"), ("sp", sp), ("sv", "1.0"), ("sig", k)],
          some (.obj [("requestType", .str "SearchOrganisation"),
            ("parameters", .obj [("dunsNumber", .str duns)])])⟩], ?_, by simp⟩ <;>
        simp [findOrganisationFromDunsNumber, BaseSpotlightAPIClient.post,
          BaseSpotlightAPIClient.getParams, baseRequest, HttpState.send, classifyJson,
          Outcome.getKey, API_VERSION, SV, apply_ite (f := Prod.snd)] <;>
        repeat' split <;> first | rfl | simp
  · rcases st with ⟨pending, sentLog⟩
    cases en
    · refine ⟨[], ?_, by simp⟩
      simp [informSpotlightOfDunsNumberForCheck, BaseSpotlightAPIClient.post, baseRequest]
    · rcases pending with _ | ⟨r, rest⟩
      · refine ⟨[⟨"POST", SptlightURL.POST_FVRA_WARM_UP.value,
          [("api-version", "2016-10-01"), ("sp", sp), ("sv", "1.0"), ("sig", k)],
          some (.obj [("Account", .arr [.obj [("Name", .str org), ("DunsNumber", .str duns),
            ("OnDemandChecks", .str "true"), ("PartOfDailyChecks", .str "false")]])])⟩],
          ?_, by simp⟩
        simp [informSpotlightOfDunsNumberForCheck, BaseSpotlightAPIClient.post,
          BaseSpotlightAPIClient.getParams, baseRequest, HttpState.send, API_VERSION, SV]
      · by_cases h4 : 400 ≤ r.status
        · refine ⟨[⟨"POST", SptlightURL.POST_FVRA_WARM_UP.value,
            [("api-version", "2016-10-01"), ("sp", sp), ("sv", "1.0"), ("sig", k)],
            some (.obj [("Account", .arr [.obj [("Name", .str org), ("DunsNumber", .str duns),
              ("OnDemandChecks", .str "true"), ("PartOfDailyChecks", .str "false")]])])⟩],
            ?_, by simp⟩
          simp [informSpotlightOfDunsNumberForCheck, BaseSpotlightAPIClient.post,
            BaseSpotlightAPIClient.getParams, baseRequest, HttpState.send, API_VERSION,
            SV, h4]
        · by_cases h3 : 300 ≤ r.status
          · rcases hl : r.location with _ | loc
            · refine ⟨[⟨"POST", SptlightURL.POST_FVRA_WARM_UP.value,
                [("api-version", "2016-10-01"), ("sp", sp), ("sv", "1.0"), ("sig", k)],
                some (.obj [("Account", .arr [.obj [("Name", .str org),
                  ("DunsNumber", .str duns), ("OnDemandChecks", .str "true"),
                  ("PartOfDailyChecks", .str "false")]])])⟩], ?_, by simp⟩
              simp [informSpotlightOfDunsNumberForCheck, BaseSpotlightAPIClient.post,
                BaseSpotlightAPIClient.getParams, baseRequest, HttpState.send,
                API_VERSION, SV, h4, h3, hl]
            · refine ⟨[⟨"POST", SptlightURL.POST_FVRA_WARM_UP.value,
                [("api-version", "2016-10-01"), ("sp", sp), ("sv", "1.0"), ("sig", k)],
                some (.obj [("Account", .arr [.obj [("Name", .str org),
                  ("DunsNumber", .str duns), ("OnDemandChecks", .str "true"),
                  ("PartOfDailyChecks", .str "false")]])])⟩,
                ⟨"GET", loc, [], none⟩], ?_, by simp⟩
              rcases rest with _ | ⟨r2, rest2⟩ <;>
                simp [informSpotlightOfDunsNumberForCheck, BaseSpotlightAPIClient.post,
                  BaseSpotlightAPIClient.getParams, baseRequest, HttpState.send,
                  API_VERSION, SV, h4, h3, hl, apply_ite (f := Prod.snd)] <;>
                repeat' split
              all_goals rfl
          · refine ⟨[⟨"POST", SptlightURL.POST_FVRA_WARM_UP.value,
              [("api-version", "2016-10-01"), ("sp", sp), ("sv", "1.0"), ("sig", k)],
              some (.obj [("Account", .arr [.obj [("Name", .str org),
                ("DunsNumber", .str duns), ("OnDemandChecks", .str "true"),
                ("PartOfDailyChecks", .str "false")]])])⟩], ?_, by simp⟩
            simp [informSpotlightOfDunsNumberForCheck, BaseSpotlightAPIClient.post,
              BaseSpotlightAPIClient.getParams, baseRequest, HttpState.send,
              API_VERSION, SV, h4, h3, apply_ite (f := Prod.snd)]
  · rcases st with ⟨pending, sentLog⟩
    cases en
    · refine ⟨[], ?_, by simp⟩
      simp [getFinancialsFromDunsNumber, BaseSpotlightAPIClient.post, baseRequest,
        Outcome.getKey, Json.getKey, List.lookup, apply_ite (f := Prod.snd)]
    · rcases pending with _ | ⟨r, rest⟩ <;>
        refine ⟨[⟨"POST", SptlightURL.POST_SINGLE_FINANCIALS_CHECK.value,
          [("api-version", "2016-10-01"), ("sp", sp), ("sv", "1.0"), ("sig", k)],
          some (.obj [("Account", .arr [.obj [("DunsNumber", .str duns),
            ("OnDemandChecks", .str "true"), ("PartOfDailyChecks", .str "false")]])])⟩],
          ?_, by simp⟩ <;>
        simp [getFinancialsFromDunsNumber, BaseSpotlightAPIClient.post,
          BaseSpotlightAPIClient.getParams, baseRequest, HttpState.send, classifyJson,
          Outcome.getKey, API_VERSION, SV, apply_ite (f := Prod.snd)] <;>
        repeat' split <;> first | rfl | simp
  · rcases st with ⟨pending, sentLog⟩
    cases en
    · refine ⟨[], ?_, by simp⟩
      simp [getFinancialsFromDunsNumbers, BaseSpotlightAPIClient.post, baseRequest,
        Outcome.getKey, Json.getKey, List.lookup, apply_ite (f := Prod.snd)]
    · rcases pending with _ | ⟨r, rest⟩ <;>
        refine ⟨[⟨"POST", SptlightURL.POST_MULTIPLE_FINANCIALS_CHECK.value,
          [("api-version", "2016-10-01"), ("sp", sp), ("sv", "1.0"), ("sig", k)],
          some (.obj [("Account", .arr [.obj [("DunsNumber", .arr (ds.map .str)),
            ("OnDemandChecks", .str "true"), ("PartOfDailyChecks", .str "false")]])])⟩],
          ?_, by simp⟩ <;>
        simp [getFinancialsFromDunsNumbers, BaseSpotlightAPIClient.post,
          BaseSpotlightAPIClient.getParams, baseRequest, HttpState.send, classifyJson,
          Outcome.getKey, API_VERSION, SV, apply_ite (f := Prod.snd)] <;>
        repeat' split <;> first | rfl | simp

/-- Claim C2 counterexample: a disabled warm-up client performs zero HTTP
requests but does not return a no-op success — the operation post-processes
the engine's synthetic `\x7b\x7d`, which is not the expected byte literal,
and raises `HTTPError` 500. -/
theorem disabled_spotlight_raises_counterexample :
    informSpotlightOfDunsNumberForCheck ⟨SP_FVRA, none, some "api-key", false⟩
      "123456789" "Vandham" ⟨[], []⟩ =
      (.error (.httpError 500 "Could not initiate warm up with Duns Number 123456789"),
        ⟨[], []⟩) := by
  rfl

/-- Claim C2 (amended): a disabled client never touches the transport —
every operation leaves the mock state untouched (zero requests recorded)
and the engine itself returns the synthetic success `\x7b\x7d` for every
verb and response mode; but not every façade operation returns that no-op
success: the four Spotlight operations post-process the synthetic body and
raise (`KeyError` for the DUNS search and the financials checks,
`HTTPError` 500 for the warm-up), while the modelled Data/Tasks/CDP
operations do return success values. -/
theorem disabled_client_no_requests (rt : ResponseType) (req : Request) (st : HttpState)
    (sp bu tok : String) (b cu : Option String) (k ak : String) (duns org : String)
    (ds : List String) (sid email pw fslug uid npw slug shareCode documentId : String)
    (u : String) (upd ntn nti : Option String) (decl : Json) :
    baseRequest false rt req st = (.ok (.decoded (Json.obj [])), st) ∧
    requestJson false req st = (.ok (Json.obj []), st) ∧
    findOrganisationFromDunsNumber ⟨sp, b, some k, false⟩ duns st
      = (.error (.keyError "searchOrganisation"), st) ∧
    informSpotlightOfDunsNumberForCheck ⟨sp, b, some k, false⟩ duns org st
      = (.error (.httpError 500
          ("Could not initiate warm up with Duns Number " ++ duns)), st) ∧
    getFinancialsFromDunsNumber ⟨sp, b, some k, false⟩ duns st
      = (.error (.keyError "ResultSets"), st) ∧
    getFinancialsFromDunsNumbers ⟨sp, b, some k, false⟩ ds st
      = (.error (.keyError "ResultSets"), st) ∧
    DataAPIClient.getService ⟨bu, tok, cu, false⟩ sid st = (.ok (some (Json.obj [])), st) ∧
    DataAPIClient.authenticateUser ⟨bu, tok, cu, false⟩ email pw st
      = (.ok (some (Json.obj [])), st) ∧
    DataAPIClient.updateSupplierDeclaration ⟨bu, tok, cu, false⟩ sid fslug decl (some u) st
      = (.ok (Json.obj []), st) ∧
    DataAPIClient.updateUserPassword ⟨bu, tok, cu, false⟩ uid npw upd st
      = (.ok true, st) ∧
    TasksAPIClient.notifySuppliersOfFrameworkApplicationEvent ⟨bu, tok, cu, false⟩ slug
      (some u) ntn nti st = (.ok (Json.obj []), st) ∧
    CentralDigitalPlatformAPIClient.getDocumentWithinSupplierSubmittedInformation
      ⟨bu, ak, false⟩ shareCode documentId st = (.ok (.decoded (Json.obj [])), st) := by
  exact ⟨rfl, rfl, rfl, rfl, rfl, rfl, rfl, rfl, rfl, rfl, rfl, rfl⟩

/-- Claim C3 counterexample: `authenticate_user` on a mocked 400 returns
the sentinel `None` instead of raising, although 400 is not a 404 and the
method is not a single-resource GET. -/
theorem authenticate_user_sentinel_counterexample :
    (DataAPIClient.authenticateUser ⟨"http://baseurl", "auth-token", none, true⟩
      "email_address" "password"
      ⟨[⟨400, none, .jsonBody (.obj [("authorization", .bool false)])⟩], []⟩).1
      = .ok none := by
  rfl

/-- Claim C3 (amended): a non-2xx response raises, with these exceptions:
the documented 404→None single-resource GETs (`get_service` returns `None`
exactly when the status is 404, raising on every other non-2xx such as 400
or 500); `authenticate_user`, which returns `None` on each of 400, 403 and
404 and raises otherwise; and `update_user_password`, which swallows any
HTTP failure into `False`. -/
theorem error_propagation_policy (bu tok : String) (u : Option String)
    (sid email pw uid npw : String) (upd : Option String) (status : Nat)
    (loc : Option String) (b : Body) (rest : List Response) (sent : List Request)
    (h : 400 ≤ status) :
    (DataAPIClient.getService ⟨bu, tok, u, true⟩ sid
        ⟨⟨status, loc, b⟩ :: rest, sent⟩).1
      = (if status = 404 then .ok none
         else .error (.httpError status (failureMessage b))) ∧
    (DataAPIClient.authenticateUser ⟨bu, tok, u, true⟩ email pw
        ⟨⟨status, loc, b⟩ :: rest, sent⟩).1
      = (if status = 400 ∨ status = 403 ∨ status = 404 then .ok none
         else .error (.httpError status (failureMessage b))) ∧
    (DataAPIClient.updateUserPassword ⟨bu, tok, u, true⟩ uid npw upd
        ⟨⟨status, loc, b⟩ :: rest, sent⟩).1
      = .ok false := by
  refine ⟨?_, ?_, ?_⟩ <;>
    simp [DataAPIClient.getService, DataAPIClient.authenticateUser,
      DataAPIClient.updateUserPassword, requestJson, HttpState.send, classifyJson, h,
      apply_ite (f := Prod.fst)]

/-- Claim C3 witness: the propagation policy applied at status 500 — the
404→None GET raises, `authenticate_user` raises, `update_user_password`
returns `False`. -/
theorem error_propagation_policy_witness :
    (DataAPIClient.getService ⟨"http://baseurl", "auth-token", none, true⟩ "123"
        ⟨⟨500, none, .jsonBody (.obj [])⟩ :: [], []⟩).1
      = (if (500 : Nat) = 404 then .ok none
         else .error (.httpError 500 (failureMessage (.jsonBody (.obj []))))) ∧
    (DataAPIClient.authenticateUser ⟨"http://baseurl", "auth-token", none, true⟩
        "email_address" "password" ⟨⟨500, none, .jsonBody (.obj [])⟩ :: [], []⟩).1
      = (if (500 : Nat) = 400 ∨ (500 : Nat) = 403 ∨ (500 : Nat) = 404 then .ok none
         else .error (.httpError 500 (failureMessage (.jsonBody (.obj []))))) ∧
    (DataAPIClient.updateUserPassword ⟨"http://baseurl", "auth-token", none, true⟩
        "42" "newpassword" none ⟨⟨500, none, .jsonBody (.obj [])⟩ :: [], []⟩).1
      = .ok false :=
  error_propagation_policy "http://baseurl" "auth-token" none "123" "email_address"
    "password" "42" "newpassword" none 500 none (.jsonBody (.obj [])) [] [] (by decide)

/-- Claim C5 counterexample: `find_organisation_from_duns_number` on a 200
response with a plain-text body does not surface the invalid-response
error — the caller observes an `HTTPError` (status 404 with the Spotlight
message) because the façade catches `InvalidResponse` and converts it. -/
theorem find_organisation_invalid_response_counterexample :
    ((findOrganisationFromDunsNumber ⟨SP_DUNS, none, some "api-key", true⟩ "123456789"
        ⟨[⟨200, none, .textBody "The parameters provided are invalid, please use a different combination and try again."⟩],
          []⟩).1
      = .error (.httpError 404 "Could not find organisation with Duns Number 123456789")) ∧
    ((findOrganisationFromDunsNumber ⟨SP_DUNS, none, some "api-key", true⟩ "123456789"
        ⟨[⟨200, none, .textBody "The parameters provided are invalid, please use a different combination and try again."⟩],
          []⟩).1).isInvalidResponse = false := by
  exact ⟨rfl, rfl⟩

/-- Claim C5 (amended): the engine classifies a 2xx response whose body
fails JSON decoding as the distinct `InvalidResponse` error, distinguishable
from the `HTTPError` raised for any status of 400 or above; however
`SpotlightAPIClient.find_organisation_from_duns_number` does not let its
caller observe it: the façade catches `InvalidResponse` and raises an
`HTTPError` (status 404, Spotlight not-found message) instead. -/
theorem invalid_response_classification (status status2 : Nat) (s : String)
    (loc loc2 : Option String) (b2 : Body) (duns sp : String) (bu key : Option String)
    (rest : List Response) (sent : List Request)
    (h2xx : 200 ≤ status ∧ status < 300) (h4xx : 400 ≤ status2) :
    classifyJson ⟨status, loc, .textBody s⟩
      = .error (.invalidResponse "No JSON object could be decoded") ∧
    classifyJson ⟨status2, loc2, b2⟩
      = .error (.httpError status2 (failureMessage b2)) ∧
    (findOrganisationFromDunsNumber ⟨sp, bu, key, true⟩ duns
        ⟨⟨status, loc, .textBody s⟩ :: rest, sent⟩).1
      = .error (.httpError 404
          ("Could not find organisation with Duns Number " ++ duns)) := by
  have h4 : ¬ 400 ≤ status := by omega
  refine ⟨?_, ?_, ?_⟩ <;>
    simp [classifyJson, findOrganisationFromDunsNumber, BaseSpotlightAPIClient.post,
      baseRequest, HttpState.send, Outcome.getKey, SpotlightDunsAPIError,
      formatDunsMessage, Except.map, h4, h4xx]

/-- Claim C5 witness: the classification theorem applied at a 200 plain-text
body and a 500 JSON body. -/
theorem invalid_response_classification_witness :
    classifyJson ⟨200, none, .textBody "The parameters provided are invalid, please use a different combination and try again."⟩
      = .error (.invalidResponse "No JSON object could be decoded") ∧
    classifyJson ⟨500, none, .jsonBody (.obj [])⟩
      = .error (.httpError 500 (failureMessage (.jsonBody (.obj [])))) ∧
    (findOrganisationFromDunsNumber ⟨SP_DUNS, none, some "api-key", true⟩ "123456789"
        ⟨⟨200, none, .textBody "The parameters provided are invalid, please use a different combination and try again."⟩ :: [],
          []⟩).1
      = .error (.httpError 404
          ("Could not find organisation with Duns Number " ++ "123456789")) :=
  invalid_response_classification 200 500
    "The parameters provided are invalid, please use a different combination and try again."
    none none (.jsonBody (.obj [])) "123456789" SP_DUNS none (some "api-key") [] []
    (by decide) (by decide)

/-- Claim C7 counterexample: `update_user_password`, a mutating method
called with neither an explicit user nor a constructor default, does not
raise `ValueError` — it sends the request with the fallback attribution
`no logged-in user` and reports success. -/
theorem update_user_password_fallback_counterexample :
    DataAPIClient.updateUserPassword ⟨"http://baseurl", "auth-token", none, true⟩
      "123" "newpassword" none ⟨[⟨200, none, .jsonBody (.obj [])⟩], []⟩
      = (.ok true, ⟨[], [⟨"POST", "/users/123", [],
          some (.obj [("users", .obj [("password", .str "newpassword")]),
            ("updated_by", .str "no logged-in user")])⟩]⟩) := by
  rfl

/-- Claim C7 (amended): mutating methods send a body whose `updated_by` is
the resolved attribution, an explicit per-call user taking priority over
the client-level default bound at construction, and raise `ValueError`
before any HTTP request when neither is available — with the exception of
`update_user_password`, which falls back to the literal
`no logged-in user` instead of raising. -/
theorem updated_by_resolution (bu tok d u slug sid fslug : String)
    (ntn nti : Option String) (decl : Json) (st : HttpState) :
    (TasksAPIClient.notifySuppliersOfFrameworkApplicationEvent ⟨bu, tok, some d, true⟩
        slug (some u) ntn nti st).2.sent
      = st.sent ++ [⟨"POST",
          "/frameworks/" ++ slug ++ "/notifications/framework-application-event", [],
          some (.obj [("updated_by", .str u), ("notificationTemplateName", optStr ntn),
            ("notificationTemplateId", optStr nti)])⟩] ∧
    (TasksAPIClient.notifySuppliersOfFrameworkApplicationEvent ⟨bu, tok, some d, true⟩
        slug none ntn nti st).2.sent
      = st.sent ++ [⟨"POST",
          "/frameworks/" ++ slug ++ "/notifications/framework-application-event", [],
          some (.obj [("updated_by", .str d), ("notificationTemplateName", optStr ntn),
            ("notificationTemplateId", optStr nti)])⟩] ∧
    TasksAPIClient.notifySuppliersOfFrameworkApplicationEvent ⟨bu, tok, none, true⟩
        slug none ntn nti st
      = (.error (.valueError "Must supply updated_by"), st) ∧
    (DataAPIClient.updateSupplierDeclaration ⟨bu, tok, some d, true⟩ sid fslug decl
        (some u) st).2.sent
      = st.sent ++ [⟨"PATCH",
          "/suppliers/" ++ sid ++ "/frameworks/" ++ fslug ++ "/declaration", [],
          some (.obj [("declaration", decl), ("updated_by", .str u)])⟩] ∧
    (DataAPIClient.updateSupplierDeclaration ⟨bu, tok, some d, true⟩ sid fslug decl
        none st).2.sent
      = st.sent ++ [⟨"PATCH",
          "/suppliers/" ++ sid ++ "/frameworks/" ++ fslug ++ "/declaration", [],
          some (.obj [("declaration", decl), ("updated_by", .str d)])⟩] ∧
    DataAPIClient.updateSupplierDeclaration ⟨bu, tok, none, true⟩ sid fslug decl none st
      = (.error (.valueError "Must supply updated_by"), st) := by
  refine ⟨?_, ?_, rfl, ?_, ?_, rfl⟩ <;>
    · rcases st with ⟨pending, sentLog⟩
      rcases pending with _ | ⟨r, rest⟩ <;> rfl

/-- Claim C10: a 2xx response whose body is valid JSON but lacks the
expected structure escapes as a plain Python error, not one of the
library's typed errors: the DUNS search (which catches only
`InvalidResponse`) raises `KeyError` when `searchOrganisation` is absent
and `IndexError` when it is an empty list, the single financials check
raises `KeyError` when `ResultSets` is absent, and the multiple financials
check raises `KeyError` when `Table1` is absent. -/
theorem structural_errors_escape_untyped (sp : String) (bu key : Option String)
    (duns : String) (ds : List String) (fields g : List (String × Json))
    (loc : Option String) (rest : List Response) (sent : List Request)
    (h1 : fields.lookup "searchOrganisation" = none)
    (h2 : fields.lookup "ResultSets" = none)
    (h3 : g.lookup "Table1" = none) :
    (findOrganisationFromDunsNumber ⟨sp, bu, key, true⟩ duns
        ⟨⟨200, loc, .jsonBody (.obj fields)⟩ :: rest, sent⟩).1
      = .error (.keyError "searchOrganisation") ∧
    (findOrganisationFromDunsNumber ⟨sp, bu, key, true⟩ duns
        ⟨⟨200, loc, .jsonBody (.obj [("searchOrganisation", .arr [])])⟩ :: rest, sent⟩).1
      = .error .indexError ∧
    (getFinancialsFromDunsNumber ⟨sp, bu, key, true⟩ duns
        ⟨⟨200, loc, .jsonBody (.obj fields)⟩ :: rest, sent⟩).1
      = .error (.keyError "ResultSets") ∧
    (getFinancialsFromDunsNumbers ⟨sp, bu, key, true⟩ ds
        ⟨⟨200, loc, .jsonBody (.obj [("ResultSets", .obj g)])⟩ :: rest, sent⟩).1
      = .error (.keyError "Table1") := by
  refine ⟨?_, ?_, ?_, ?_⟩ <;>
    simp [findOrganisationFromDunsNumber, getFinancialsFromDunsNumber,
      getFinancialsFromDunsNumbers, BaseSpotlightAPIClient.post, baseRequest,
      HttpState.send, classifyJson, Outcome.getKey, Json.getKey, Json.getIdx,
      Except.map, List.lookup, h1, h2, h3]

/-- Claim C10 witness: the escape theorem applied at the empty JSON
object (and an empty `ResultSets` object). -/
theorem structural_errors_escape_untyped_witness :
    (findOrganisationFromDunsNumber ⟨SP_DUNS, none, some "api-key", true⟩ "123456789"
        ⟨⟨200, none, .jsonBody (.obj [])⟩ :: [], []⟩).1
      = .error (.keyError "searchOrganisation") ∧
    (findOrganisationFromDunsNumber ⟨SP_DUNS, none, some "api-key", true⟩ "123456789"
        ⟨⟨200, none, .jsonBody (.obj [("searchOrganisation", .arr [])])⟩ :: [], []⟩).1
      = .error .indexError ∧
    (getFinancialsFromDunsNumber ⟨SP_DUNS, none, some "api-key", true⟩ "123456789"
        ⟨⟨200, none, .jsonBody (.obj [])⟩ :: [], []⟩).1
      = .error (.keyError "ResultSets") ∧
    (getFinancialsFromDunsNumbers ⟨SP_DUNS, none, some "api-key", true⟩ ["123456789"]
        ⟨⟨200, none, .jsonBody (.obj [("ResultSets", .obj [])])⟩ :: [], []⟩).1
      = .error (.keyError "Table1") :=
  structural_errors_escape_untyped SP_DUNS none (some "api-key") "123456789"
    ["123456789"] [] [] none [] [] rfl rfl rfl
